import Mathlib

/-
Verification of the tek4404 bus-and-peripheral emulation core.

Shallow embedding of the Rust sources (src/err.rs, src/mem.rs, src/bus.rs,
src/scsi.rs, src/duart.rs, src/acia.rs, src/sound.rs, src/service.rs).
Machine integers (u8/u16/u32/usize) are modelled as Nat; every store of a
byte mirrors the source's explicit truncation (an `as u8` cast is `&&& 0xff`).
A Rust `Result` is the `ok`/`err` cases of `RResult`; an out-of-bounds
Vec/array/slice index, which panics in Rust, is the `panicked` case.
Logging macros are I/O only and are dropped.  `set_irq` calls cross the FFI
boundary into the external CPU core and are likewise outside the modelled
state.  `Instant` is modelled as a nanosecond count (Nat).
-/

namespace Tek4404

/-- BusError from src/err.rs. -/
inductive BusError where
  | Access
  | Alignment
  | ReadOnly
deriving DecidableEq

deriving instance DecidableEq for Except

/-- Outcome of a fallible Rust operation: Ok value, a returned BusError, or
a Rust panic (out-of-bounds index). -/
inductive RResult (α : Type) where
  | ok : α → RResult α
  | err : BusError → RResult α
  | panicked : RResult α
deriving DecidableEq

/-- Memory device from src/mem.rs. The Vec of bytes is a List Nat. -/
structure Memory where
  read_only : Bool
  start_address : Nat
  end_address : Nat
  size : Nat
  mem : List Nat
deriving DecidableEq

/-- ScsiDeviceState from src/scsi.rs. -/
inductive ScsiDeviceState where
  | Unselected
  | Selected
  | Command
  | DataOut
deriving DecidableEq

/-- ScsiDevice from src/scsi.rs. -/
structure ScsiDevice where
  state : ScsiDeviceState
deriving DecidableEq

/-- ControllerState from src/scsi.rs. -/
inductive ControllerState where
  | Disconnected
  | Target
  | Initiator
deriving DecidableEq

/-- Scsi controller state from src/scsi.rs. -/
structure Scsi where
  address : Nat
  address_msb : Bool
  data1 : Nat
  command : Nat
  control : Nat
  dest_id : Nat
  aux_stat : Nat
  id : Nat
  interrupt : Nat
  source_id : Nat
  data2 : Nat
  diag_status : Nat
  xfer : Nat
  cmd_ptr : Nat
  controller_state : ControllerState
  scsi_cmd : List Nat
  atn : Bool
  devices : List ScsiDevice
deriving DecidableEq

/-- One DUART port from src/duart.rs; queues are VecDeque (front = list head,
back = list end), char_delay is in nanoseconds. -/
structure Port where
  mode : List Nat
  stat : Nat
  conf : Nat
  rx_data : Nat
  tx_data : Nat
  mode_ptr : Nat
  rx_queue : List Nat
  tx_queue : List Nat
  char_delay : Nat
deriving DecidableEq

/-- Duart from src/duart.rs; the two-element ports array is two fields
(index 0 = port_a, index 1 = port_b). -/
structure Duart where
  port_a : Port
  port_b : Port
  acr : Nat
  ipcr : Nat
  inprt : Nat
  outprt : Nat
  istat : Nat
  imr : Nat
  ivec : Nat
deriving DecidableEq

/-- TelnetState from src/acia.rs. -/
inductive TelnetState where
  | Data
  | OptionName
  | OptionValue
deriving DecidableEq

/-- AciaState from src/acia.rs: the bounded ArrayDeque ring buffers become
lists (front = head) with capacity 8; the waker handle is opaque, so only
its presence is tracked. -/
structure AciaState where
  ts : TelnetState
  connected : Bool
  tx_data : List Nat
  rx_data : List Nat
  waker : Option Unit
deriving DecidableEq

/-- Acia device from src/acia.rs. -/
structure Acia where
  state : AciaState
  data : Nat
  control : Nat
  command : Nat
  status : Nat
deriving DecidableEq

/-- ServiceKey from src/service.rs. -/
inductive ServiceKey where
  | Scsi
deriving DecidableEq

/-- ServiceRequest from src/service.rs; when is an absolute deadline in
nanoseconds. -/
structure ServiceRequest where
  key : ServiceKey
  when : Nat
deriving DecidableEq

/-- ServiceQueue from src/service.rs.  The BinaryHeap (whose Ord reverses
comparison on the deadline, making it a min-heap on when) is refined by a
list kept sorted by ascending deadline: peek is the head, push is ordered
insertion.  Requests compare only on the deadline and the only key is Scsi,
so ties are identical elements and the refinement is observationally exact. -/
structure ServiceQueue where
  queue : List ServiceRequest
deriving DecidableEq

/-- Ordered insertion implementing BinaryHeap::push under the reversed Ord
of src/service.rs. -/
def insertByWhen (r : ServiceRequest) : List ServiceRequest → List ServiceRequest
  | [] => [r]
  | s :: rest =>
    if r.when ≤ s.when then r :: s :: rest else s :: insertByWhen r rest

/-- ServiceQueue::schedule: push a request due at now + delay (delay in
nanoseconds). -/
def ServiceQueue.schedule (q : ServiceQueue) (key : ServiceKey) (now delay : Nat) :
    ServiceQueue :=
  { queue := insertByWhen { key := key, when := now + delay } q.queue }

/-- ServiceQueue::take: peek the earliest request; pop it only when the
current instant is strictly past its deadline. -/
def ServiceQueue.take (q : ServiceQueue) (now : Nat) :
    Option ServiceRequest × ServiceQueue :=
  match q.queue with
  | [] => (none, q)
  | r :: rest => if now > r.when then (some r, ⟨rest⟩) else (none, q)

/-- Address-map constants from src/bus.rs. -/
def ROM_START : Nat := 0x740000
def ROM_END : Nat := 0x74ffff
def ROM_SIZE : Nat := 0x8000
def RAM_START : Nat := 0
def RAM_END : Nat := 0x1fffff
def RAM_SIZE : Nat := 0x200000
def DEBUG_RAM_START : Nat := 0x760000
def DEBUG_RAM_END : Nat := 0x76ffff
def DEBUG_RAM_SIZE : Nat := 0x1000
def SOUND_START : Nat := 0x788000
def SOUND_END : Nat := 0x788fff
def ACIA_START : Nat := 0x78c000
def ACIA_END : Nat := 0x78c007
def VIDEO_START : Nat := 0x782000
def VIDEO_END : Nat := 0x785fff
def VRAM_START : Nat := 0x600000
def VRAM_END : Nat := 0x61ffff
def VRAM_SIZE : Nat := 0x20000
def DUART_START : Nat := 0x7b4000
def DUART_END : Nat := 0x7b5fff
def DIAG_START : Nat := 0x7b0000
def DIAG_END : Nat := 0x7b1fff
def DIAG_SIZE : Nat := 0x2000
def FPU_START : Nat := 0x78a000
def FPU_END : Nat := 0x78bfff
def MMU_START : Nat := 0x780000
def MMU_END : Nat := 0x7800ff
def PT_START : Nat := 0x800000
def PT_END : Nat := 0xffffff
def SCSI_START : Nat := 0x7bc000
def SCSI_END : Nat := 0x7bffff
def MOUSE_START : Nat := 0x7b6000
def MOUSE_END : Nat := 0x7b7fff
def TIMER_START : Nat := 0x7b8000
def TIMER_END : Nat := 0x7b9fff
def CAL_START : Nat := 0x7ba000
def CAL_END : Nat := 0x7bbfff

/-- The Bus of src/bus.rs.  Stateless stub devices (Sound, Video, Fpu, Mmu,
Mouse, Timer, Calendar are empty structs) are Option Unit: only presence
matters. -/
structure Bus where
  map_rom : Bool
  rom : Option Memory
  ram : Option Memory
  debug_ram : Option Memory
  sound : Option Unit
  acia : Option Acia
  video : Option Unit
  video_ram : Option Memory
  duart : Option Duart
  diag : Option Memory
  fpu : Option Unit
  mmu : Option Unit
  scsi : Option Scsi
  mouse : Option Unit
  timer : Option Unit
  cal : Option Unit
deriving DecidableEq

/-- Bus::empty from src/bus.rs. -/
def Bus.empty : Bus :=
  { map_rom := false
    rom := none, ram := none, debug_ram := none, sound := none, acia := none
    video := none, video_ram := none, duart := none, diag := none, fpu := none
    mmu := none, scsi := none, mouse := none, timer := none, cal := none }

/-- Memory::get_offset from src/mem.rs: a read-only device while the boot
ROM is mapped wraps any address modulo its size; otherwise the address must
lie in the claimed inclusive range and the relative offset wraps modulo the
backing size. -/
def Memory.get_offset (m : Memory) (bus : Bus) (address : Nat) :
    Except BusError Nat :=
  if m.read_only && bus.map_rom then
    .ok (address % m.size)
  else if m.start_address ≤ address && address ≤ m.end_address then
    .ok ((address - m.start_address) % m.size)
  else
    .error .Access

/-- Big-endian 16-bit value of two adjacent bytes, as byteorder reads it. -/
def readBE16 (l : List Nat) (o : Nat) : Nat :=
  (l.getD o 0) <<< 8 ||| l.getD (o + 1) 0

/-- Big-endian 32-bit value of four adjacent bytes. -/
def readBE32 (l : List Nat) (o : Nat) : Nat :=
  readBE16 l o <<< 16 ||| readBE16 l (o + 2)

/-- Memory::read_8: index self.mem[offset] (panics when out of bounds). -/
def Memory.read_8 (m : Memory) (bus : Bus) (address : Nat) : RResult Nat :=
  match m.get_offset bus address with
  | .error e => .err e
  | .ok offset =>
    if offset < m.mem.length then .ok (m.mem.getD offset 0) else .panicked

/-- Memory::read_16: odd offsets fault with Alignment; the 2-byte slice
mem[offset..=offset+1] panics unless offset+1 is in bounds. -/
def Memory.read_16 (m : Memory) (bus : Bus) (address : Nat) : RResult Nat :=
  match m.get_offset bus address with
  | .error e => .err e
  | .ok offset =>
    if offset &&& 1 ≠ 0 then .err .Alignment
    else if offset + 1 < m.mem.length then .ok (readBE16 m.mem offset)
    else .panicked

/-- Memory::read_32: odd offsets fault with Alignment; the 4-byte slice
mem[offset..=offset+3] panics unless offset+3 is in bounds. -/
def Memory.read_32 (m : Memory) (bus : Bus) (address : Nat) : RResult Nat :=
  match m.get_offset bus address with
  | .error e => .err e
  | .ok offset =>
    if offset &&& 1 ≠ 0 then .err .Alignment
    else if offset + 3 < m.mem.length then .ok (readBE32 m.mem offset)
    else .panicked

/-- Memory::write_8: read-only devices fault; otherwise store the byte
(the u8 argument is already a byte, the index panics out of bounds). -/
def Memory.write_8 (m : Memory) (bus : Bus) (address value : Nat) :
    RResult Unit × Memory :=
  match m.get_offset bus address with
  | .error e => (.err e, m)
  | .ok offset =>
    if m.read_only then (.err .ReadOnly, m)
    else if offset < m.mem.length then
      (.ok (), { m with mem := m.mem.set offset value })
    else (.panicked, m)

/-- Memory::write_16: alignment is checked before the read-only flag; the
two big-endian bytes are (value >> 8) as u8 and value as u8. -/
def Memory.write_16 (m : Memory) (bus : Bus) (address value : Nat) :
    RResult Unit × Memory :=
  match m.get_offset bus address with
  | .error e => (.err e, m)
  | .ok offset =>
    if offset &&& 1 ≠ 0 then (.err .Alignment, m)
    else if m.read_only then (.err .ReadOnly, m)
    else if offset + 1 < m.mem.length then
      (.ok (), { m with
        mem := (m.mem.set offset ((value >>> 8) &&& 0xff)).set (offset + 1)
          (value &&& 0xff) })
    else (.panicked, m)

/-- Memory::write_32: four big-endian bytes. -/
def Memory.write_32 (m : Memory) (bus : Bus) (address value : Nat) :
    RResult Unit × Memory :=
  match m.get_offset bus address with
  | .error e => (.err e, m)
  | .ok offset =>
    if offset &&& 1 ≠ 0 then (.err .Alignment, m)
    else if m.read_only then (.err .ReadOnly, m)
    else if offset + 3 < m.mem.length then
      let m0 := m.mem.set offset ((value >>> 24) &&& 0xff)
      let m1 := m0.set (offset + 1) ((value >>> 16) &&& 0xff)
      let m2 := m1.set (offset + 2) ((value >>> 8) &&& 0xff)
      let m3 := m2.set (offset + 3) (value &&& 0xff)
      (.ok (), { m with mem := m3 })
    else (.panicked, m)

/-- Sound::unmap_rom from src/sound.rs: the first write to the sound chip
clears the map_rom flag on the bus. -/
def Sound.unmap_rom (bus : Bus) : Bus :=
  if bus.map_rom then { bus with map_rom := false } else bus

/-- Sound writes (any width) un-map the ROM and succeed; reads return 0
(src/sound.rs). -/
def Sound.write (bus : Bus) (_address _data : Nat) : RResult Unit × Bus :=
  (.ok (), Sound.unmap_rom bus)

/-- The hardwired SCSI host ID (src/scsi.rs HOST_ID). -/
def HOST_ID : Nat := 7

/-- Aux Status flag AUX_IO of src/scsi.rs (input/output). -/
def AUX_IO_FLAG : Nat := 0x08
/-- Aux Status flag AUX_CD (command/data). -/
def AUX_CD : Nat := 0x10
/-- Aux Status flag AUX_MSG (message). -/
def AUX_MSG : Nat := 0x20
/-- Aux Status flag AUX_DF (data register full). -/
def AUX_DF : Nat := 0x80
/-- Interrupt flag INT_FC (function complete). -/
def INT_FC : Nat := 0x01
/-- Interrupt flag INT_BUS (bus service). -/
def INT_BUS : Nat := 0x02

/-- SCSI register addresses (the RegAddr enum of src/scsi.rs; Data2 keeps
the source's literal 0x7be0010, which lies outside the SCSI range). -/
def REG_ADDRESS : Nat := 0x7bc000
def REG_DATA1 : Nat := 0x7be000
def REG_COMMAND : Nat := 0x7be002
def REG_CONTROL : Nat := 0x7be004
def REG_DEST_ID : Nat := 0x7be006
def REG_AUX_STATUS : Nat := 0x7be008
def REG_ID : Nat := 0x7be00a
def REG_INTERRUPT : Nat := 0x7be00c
def REG_SOURCE_ID : Nat := 0x7be00e
def REG_DATA2 : Nat := 0x7be0010
def REG_DIAG_STATUS : Nat := 0x7be012
def REG_XFER2 : Nat := 0x7be018
def REG_XFER1 : Nat := 0x7be01a
def REG_XFER0 : Nat := 0x7be01c

/-- Scsi::new from src/scsi.rs. -/
def Scsi.new : Scsi :=
  { address := 0
    address_msb := false
    data1 := 0
    command := 0
    control := 0
    dest_id := 0
    aux_stat := 0
    id := HOST_ID
    interrupt := 0
    source_id := 0
    data2 := 0
    diag_status := 0
    xfer := 0
    cmd_ptr := 0
    controller_state := .Disconnected
    scsi_cmd := List.replicate 16 0
    atn := false
    devices := List.replicate 8 ⟨.Unselected⟩ }

/-- Scsi::reset: reinitialize every register to its documented power-on
value and reset all eight per-device states to Unselected. -/
def Scsi.reset (s : Scsi) : Scsi :=
  { address := 0
    address_msb := false
    data1 := 0
    command := 0
    control := 0
    dest_id := 0
    aux_stat := 0x02
    id := HOST_ID
    interrupt := 0
    source_id := 0x07
    data2 := 0
    diag_status := 0x80
    xfer := 0
    cmd_ptr := 0
    scsi_cmd := List.replicate s.scsi_cmd.length 0
    controller_state := .Disconnected
    atn := false
    devices := s.devices.map fun _ => ⟨.Unselected⟩ }

/-- Scsi::select: become initiator, mark the destination device Selected,
set the FC interrupt and Command-phase aux status, stamp the valid source
id, schedule a service call 250 ms out, and (externally) raise the SCSI
interrupt level. -/
def Scsi.select (s : Scsi) (q : ServiceQueue) (now : Nat) (atn : Bool) :
    Scsi × ServiceQueue :=
  let s := { s with
    controller_state := .Initiator
    atn := atn
    devices := s.devices.set (s.dest_id &&& 0x7) ⟨.Selected⟩
    interrupt := INT_FC
    aux_stat := AUX_CD
    source_id := 0x80 ||| s.dest_id }
  (s, q.schedule .Scsi now 250000000)

/-- Scsi::transfer_info: reset the command-byte pointer and schedule a
service call 100 ms out. -/
def Scsi.transfer_info (s : Scsi) (q : ServiceQueue) (now : Nat) :
    Scsi × ServiceQueue :=
  ({ s with cmd_ptr := 0 }, q.schedule .Scsi now 100000000)

/-- Scsi::handle_command: the low five bits select the opcode; ChipReset,
Disconnect, the two selects, TransferInfo and TransferPad are handled, all
other opcodes (recognized or not) are logged no-ops. -/
def Scsi.handle_command (s : Scsi) (q : ServiceQueue) (now command : Nat) :
    Scsi × ServiceQueue :=
  match command &&& 0x1f with
  | 0 => (s.reset, q)
  | 1 => (s, q)
  | 8 => s.select q now true
  | 9 => s.select q now false
  | 20 => s.transfer_info q now
  | 21 => (s, q)
  | _ => (s, q)

/-- Scsi read_8 from src/scsi.rs: reading Data1 clears the data-register
full flag (aux_stat &= !AUX_DF); all other registers read without side
effects, unknown offsets read 0. -/
def Scsi.read_8 (s : Scsi) (address : Nat) : RResult Nat × Scsi :=
  if address = REG_DATA1 then
    (.ok s.data1, { s with aux_stat := s.aux_stat &&& 0x7f })
  else if address = REG_COMMAND then (.ok s.command, s)
  else if address = REG_CONTROL then (.ok s.control, s)
  else if address = REG_DEST_ID then (.ok s.dest_id, s)
  else if address = REG_AUX_STATUS then (.ok s.aux_stat, s)
  else if address = REG_ID then (.ok s.id, s)
  else if address = REG_INTERRUPT then (.ok s.interrupt, s)
  else if address = REG_SOURCE_ID then (.ok s.source_id, s)
  else if address = REG_DATA2 then (.ok s.data2, s)
  else if address = REG_DIAG_STATUS then (.ok s.diag_status, s)
  else if address = REG_XFER2 then (.ok ((s.xfer >>> 16) &&& 0xff), s)
  else if address = REG_XFER1 then (.ok ((s.xfer >>> 8) &&& 0xff), s)
  else if address = REG_XFER0 then (.ok (s.xfer &&& 0xff), s)
  else (.ok 0, s)

/-- Scsi write_8 from src/scsi.rs.  A Data1 write stores the byte at
scsi_cmd[cmd_ptr] (panicking past the end of the 16-byte buffer, as the
Rust array index does) and increments cmd_ptr; a Command write resets
cmd_ptr and dispatches handle_command. -/
def Scsi.write_8 (s : Scsi) (q : ServiceQueue) (now address value : Nat) :
    RResult Unit × Scsi × ServiceQueue :=
  if address = REG_ADDRESS then
    if s.address_msb then
      (.ok (), { s with
        address := (s.address &&& 0x00ff) ||| (value <<< 8)
        address_msb := false }, q)
    else
      (.ok (), { s with
        address := (s.address &&& 0xff00) ||| value
        address_msb := true }, q)
  else if address = REG_DATA1 then
    if s.cmd_ptr < s.scsi_cmd.length then
      (.ok (), { s with
        scsi_cmd := s.scsi_cmd.set s.cmd_ptr value
        cmd_ptr := s.cmd_ptr + 1 }, q)
    else (.panicked, s, q)
  else if address = REG_COMMAND then
    let s := { s with cmd_ptr := 0 }
    let (s, q) := s.handle_command q now value
    (.ok (), s, q)
  else if address = REG_CONTROL then (.ok (), { s with control := value }, q)
  else if address = REG_DEST_ID then (.ok (), { s with dest_id := value }, q)
  else if address = REG_ID then (.ok (), s, q)
  else if address = REG_XFER2 then
    (.ok (), { s with xfer := (s.xfer &&& 0x00ffff) ||| (value <<< 16) }, q)
  else if address = REG_XFER1 then
    (.ok (), { s with xfer := (s.xfer &&& 0xff00ff) ||| (value <<< 8) }, q)
  else if address = REG_XFER0 then
    (.ok (), { s with xfer := (s.xfer &&& 0xffff00) ||| value }, q)
  else (.ok (), s, q)

/-- Bitwise not on a u8 (the Rust !mask under an 8-bit type). -/
def not8 (n : Nat) : Nat := 0xff ^^^ n

/-- DUART delay table selected when ACR[7] = 0 (src/duart.rs DELAY_RATES_A,
nanoseconds, 13 entries). -/
def DELAY_RATES_A : List Nat :=
  [160000000, 72727272, 59259260, 40000000, 26666668, 13333334, 6666667,
   7619047, 3333333, 1666666, 1111111, 833333, 208333]

/-- DUART delay table selected when ACR[7] = 1 (src/duart.rs DELAY_RATES_B). -/
def DELAY_RATES_B : List Nat :=
  [106666672, 72727272, 59259260, 53333336, 26666668, 13333334, 6666667,
   4000000, 3333333, 1666666, 4444444, 833333, 416666]

/-- DUART register addresses from src/duart.rs. -/
def MR12A : Nat := 0x7b4000
def CSRA : Nat := 0x7b4002
def CRA : Nat := 0x7b4004
def THRA : Nat := 0x7b4006
def IPCR_ACR : Nat := 0x7b4008
def ISR_MASK : Nat := 0x7b400a
def MR12B : Nat := 0x7b4010
def CSRB : Nat := 0x7b4012
def CRB : Nat := 0x7b4014
def THRB : Nat := 0x7b4016
def IP_OPCR : Nat := 0x7b401a
def OPBITS_SET : Nat := 0x7b401c
def OPBITS_RESET : Nat := 0x7b401e

/-- DUART configuration, status, command and interrupt bit constants. -/
def CNF_ETX : Nat := 0x01
def CNF_ERX : Nat := 0x02
def STS_RXR : Nat := 0x01
def STS_TXR : Nat := 0x04
def STS_TXE : Nat := 0x08
def STS_OER : Nat := 0x10
def STS_PER : Nat := 0x20
def STS_FER : Nat := 0x40
def CMD_ERX : Nat := 0x01
def CMD_DRX : Nat := 0x02
def CMD_ETX : Nat := 0x04
def CMD_DTX : Nat := 0x08
def ISTS_TAI : Nat := 0x01
def ISTS_RAI : Nat := 0x02
def ISTS_TBI : Nat := 0x10
def ISTS_RBI : Nat := 0x20
def ISTS_IPC : Nat := 0x80
def KEYBOARD_INT : Nat := 0x04
def TX_INT : Nat := 0x10
def RX_INT : Nat := 0x20

/-- Port::new from src/duart.rs (char_delay starts at 1 ms). -/
def Port.new : Port :=
  { mode := [0, 0], stat := 0, conf := 0, rx_data := 0, tx_data := 0
    mode_ptr := 0, rx_queue := [], tx_queue := [], char_delay := 1000000 }

/-- Duart::new from src/duart.rs. -/
def Duart.new : Duart :=
  { port_a := Port.new, port_b := Port.new
    acr := 0, ipcr := 0x40, inprt := 0x10, outprt := 0
    istat := 0, imr := 0, ivec := 0 }

/-- self.ports[port] of src/duart.rs (0 is port A, 1 is port B). -/
def Duart.getPort (d : Duart) (port : Nat) : Port :=
  if port = 0 then d.port_a else d.port_b

/-- Write back the borrowed port of src/duart.rs. -/
def Duart.setPort (d : Duart) (port : Nat) (p : Port) : Duart :=
  if port = 0 then { d with port_a := p } else { d with port_b := p }

/-- Duart::handle_command from src/duart.rs: transmitter disable/enable,
receiver disable/enable, then the 3-bit extra-command subfield. -/
def Duart.handle_command (d : Duart) (cmd port : Nat) : Duart :=
  if cmd = 0 then d
  else
    let ctx := d.getPort port
    let (ctx, d) :=
      if cmd &&& CMD_DTX ≠ 0 then
        let ctx := { ctx with
          conf := ctx.conf &&& not8 CNF_ETX
          stat := (ctx.stat &&& not8 STS_TXR) &&& not8 STS_TXE }
        let d :=
          if port = 0 then
            { d with ivec := d.ivec &&& not8 TX_INT
                     istat := d.istat &&& not8 ISTS_TAI }
          else d
        (ctx, d)
      else if cmd &&& CMD_ETX ≠ 0 then
        let ctx := { ctx with
          conf := ctx.conf ||| CNF_ETX
          stat := (ctx.stat ||| STS_TXR) ||| STS_TXE }
        let d :=
          if port = 0 then
            { d with istat := d.istat ||| ISTS_TAI
                     ivec := d.ivec ||| TX_INT }
          else d
        (ctx, d)
      else (ctx, d)
    let (ctx, d) :=
      if cmd &&& CMD_DRX ≠ 0 then
        let ctx := { ctx with
          conf := ctx.conf &&& not8 CNF_ERX
          stat := ctx.stat &&& not8 STS_RXR }
        let d :=
          if port = 0 then
            { d with ivec := d.ivec &&& not8 RX_INT
                     istat := d.istat &&& not8 ISTS_RAI }
          else
            { d with ivec := d.ivec &&& not8 KEYBOARD_INT
                     istat := d.istat &&& not8 ISTS_RBI }
        (ctx, d)
      else if cmd &&& CMD_ERX ≠ 0 then
        ({ ctx with conf := ctx.conf ||| CNF_ERX, stat := ctx.stat ||| STS_RXR }, d)
      else (ctx, d)
    let ctx :=
      match (cmd >>> 4) &&& 7 with
      | 1 => { ctx with mode_ptr := 0 }
      | 2 => { ctx with stat := ctx.stat ||| STS_RXR, conf := ctx.conf ||| CNF_ERX }
      | 3 => { ctx with
          stat := (ctx.stat ||| STS_TXR) ||| STS_TXE
          conf := ctx.conf &&& not8 CNF_ETX }
      | 4 => { ctx with stat := ctx.stat &&& not8 ((STS_FER ||| STS_PER) ||| STS_OER) }
      | _ => ctx
    d.setPort port ctx

/-- Duart read_8 from src/duart.rs.  Reading a mode register advances the
rotating mode pointer; reading THRA pops the back of the receive queue and,
once the queue is empty, clears the receive-ready status, interrupt-status
and interrupt-vector bits; reading THRB clears them without popping. -/
def Duart.read_8 (d : Duart) (address : Nat) : RResult Nat × Duart :=
  if address = MR12A then
    let ctx := d.port_a
    match ctx.mode[ctx.mode_ptr]? with
    | some val =>
      (.ok val, { d with port_a := { ctx with mode_ptr := (ctx.mode_ptr + 1) % 2 } })
    | none => (.panicked, d)
  else if address = CSRA then (.ok d.port_a.stat, d)
  else if address = THRA then
    let ctx := d.port_a
    let ctx :=
      match ctx.rx_queue.getLast? with
      | some c => { ctx with rx_data := c, rx_queue := ctx.rx_queue.dropLast }
      | none => ctx
    if ctx.rx_queue.isEmpty then
      (.ok ctx.rx_data,
        { d with port_a := { ctx with stat := ctx.stat &&& not8 STS_RXR }
                 istat := d.istat &&& not8 ISTS_RAI
                 ivec := d.ivec &&& not8 RX_INT })
    else (.ok ctx.rx_data, { d with port_a := ctx })
  else if address = IPCR_ACR then
    (.ok d.ipcr,
      { d with ipcr := d.ipcr &&& not8 0x0f, ivec := 0
               istat := d.istat &&& not8 ISTS_IPC })
  else if address = ISR_MASK then (.ok d.istat, d)
  else if address = MR12B then
    let ctx := d.port_b
    match ctx.mode[ctx.mode_ptr]? with
    | some val =>
      (.ok val, { d with port_b := { ctx with mode_ptr := (ctx.mode_ptr + 1) % 2 } })
    | none => (.panicked, d)
  else if address = CSRB then (.ok d.port_b.stat, d)
  else if address = THRB then
    (.ok d.port_b.rx_data,
      { d with port_b := { d.port_b with stat := d.port_b.stat &&& not8 STS_RXR }
               istat := d.istat &&& not8 ISTS_RBI
               ivec := d.ivec &&& not8 KEYBOARD_INT })
  else if address = IP_OPCR then (.ok d.inprt, d)
  else (.ok 0, d)

/-- Duart read_16 from src/duart.rs: only MR12A has a true 16-bit read
(both mode bytes, no pointer rotation); every other address falls back to
read_8 widened to 16 bits. -/
def Duart.read_16 (d : Duart) (address : Nat) : RResult Nat × Duart :=
  if address = MR12A then
    let ctx := d.port_a
    (.ok (((ctx.mode.getD 1 0) <<< 8) ||| ctx.mode.getD 0 0), d)
  else
    match d.read_8 address with
    | (.ok b, d) => (.ok b, d)
    | (r, d) => (r, d)

/-- Duart write_8 from src/duart.rs.  A CSRA write indexes the selected
delay table with the low four bits of the value's upper nibble (the Rust
array index panics for indices 13..15). -/
def Duart.write_8 (d : Duart) (address value : Nat) : RResult Unit × Duart :=
  if address = MR12A then
    let ctx := d.port_a
    if ctx.mode_ptr < ctx.mode.length then
      (.ok (), { d with port_a := { ctx with
        mode := ctx.mode.set ctx.mode_ptr value
        mode_ptr := (ctx.mode_ptr + 1) % 2 } })
    else (.panicked, d)
  else if address = CSRA then
    let baud_bits := (value >>> 4) &&& 0xf
    let rates := if d.acr &&& 0x80 = 0 then DELAY_RATES_A else DELAY_RATES_B
    match rates[baud_bits]? with
    | some delay => (.ok (), { d with port_a := { d.port_a with char_delay := delay } })
    | none => (.panicked, d)
  else if address = CRA then (.ok (), d.handle_command value 0)
  else if address = THRA then
    (.ok (),
      { d with port_a := { d.port_a with
                 tx_data := value
                 stat := d.port_a.stat &&& not8 (STS_TXE ||| STS_TXR) }
               istat := d.istat &&& not8 ISTS_TAI
               ivec := d.ivec &&& not8 TX_INT })
  else if address = IPCR_ACR then (.ok (), { d with acr := value })
  else if address = ISR_MASK then (.ok (), { d with imr := value })
  else if address = MR12B then
    let ctx := d.port_b
    if ctx.mode_ptr < ctx.mode.length then
      (.ok (), { d with port_b := { ctx with
        mode := ctx.mode.set ctx.mode_ptr value
        mode_ptr := (ctx.mode_ptr + 1) % 2 } })
    else (.panicked, d)
  else if address = CRB then (.ok (), d.handle_command value 1)
  else if address = THRB then
    if value &&& 0x08 ≠ 0 then
      (.ok (),
        { d with port_b := { d.port_b with
                   tx_data := value
                   stat := d.port_b.stat &&& not8 (STS_TXE ||| STS_TXR) }
                 istat := d.istat &&& not8 ISTS_TBI })
    else (.ok (), d)
  else if address = IP_OPCR then (.ok (), d)
  else if address = OPBITS_SET then (.ok (), { d with outprt := d.outprt ||| value })
  else if address = OPBITS_RESET then
    let d := { d with outprt := d.outprt &&& not8 value }
    if value &&& 0x8 ≠ 0 then
      (.ok (), { d with port_a := { d.port_a with
        rx_data := 0xf0, stat := d.port_a.stat ||| STS_RXR } })
    else (.ok (), d)
  else (.ok (), d)

/-- ACIA register addresses from src/acia.rs. -/
def DATA_REG : Nat := 0x78c000
def STAT_REG : Nat := 0x78c002
def CMD_REG : Nat := 0x78c004
def CTRL_REG : Nat := 0x78c006

/-- AciaState::new from src/acia.rs. -/
def AciaState.new : AciaState :=
  { ts := .Data, connected := false, tx_data := [], rx_data := [], waker := none }

/-- Acia::handle_command from src/acia.rs: clears the status byte. -/
def Acia.handle_command (a : Acia) : Acia := { a with status := 0 }

/-- Saturating ArrayDeque push_back, capacity 8: pushing onto a full deque
returns an error the caller discards, leaving the queue unchanged. -/
def aciaPushBack (q : List Nat) (c : Nat) : List Nat :=
  if q.length < 8 then q ++ [c] else q

/-- Acia read_8 from src/acia.rs.  Reading DATA pops the front of the
shared receive queue into the data register when a byte is present; STAT is
synthesized from queue occupancy and connection state. -/
def Acia.read_8 (a : Acia) (address : Nat) : RResult Nat × Acia :=
  if address = DATA_REG then
    let a :=
      match a.state.rx_data with
      | c :: rest => { a with data := c, state := { a.state with rx_data := rest } }
      | [] => a
    (.ok a.data, a)
  else if address = STAT_REG then
    let result := a.status
    let result := if ¬ a.state.rx_data.isEmpty then result ||| 0x8 else result
    let result := if a.state.tx_data.isEmpty then result ||| 0x10 else result
    let result := if ¬ a.state.connected then result ||| 0x60 else result
    (.ok result, a)
  else if address = CMD_REG then (.ok a.command, a)
  else if address = CTRL_REG then (.ok a.control, a)
  else (.ok 0, a)

/-- Acia write_8 from src/acia.rs; the Bool reports whether a registered
waker was woken (the wake itself is an effect on the peer task).  A DATA
write pushes onto the saturating transmit queue, discarding the push error,
then wakes any registered waker; a STAT write clears both shared queues. -/
def Acia.write_8 (a : Acia) (address value : Nat) : RResult Unit × Acia × Bool :=
  if address = DATA_REG then
    let a := { a with
      data := value
      state := { a.state with tx_data := aciaPushBack a.state.tx_data value } }
    (.ok (), a, a.state.waker.isSome)
  else if address = STAT_REG then
    let a := { a with
      data := 0
      state := { a.state with tx_data := [], rx_data := [] } }
    (.ok (), a, false)
  else if address = CMD_REG then
    (.ok (), ({ a with command := value }).handle_command, false)
  else if address = CTRL_REG then (.ok (), { a with control := value }, false)
  else (.ok (), a, false)

/-- Bus::read_8 via Bus::map_device (src/bus.rs): match the address against
the fixed region table in source order and forward to the mapped device; a
missing device or unmatched address is an Access error.  The low-memory
region resolves to ROM while map_rom is set, to RAM afterwards. -/
def Bus.read_8 (bus : Bus) (address : Nat) : RResult Nat × Bus :=
  if ROM_START ≤ address ∧ address ≤ ROM_END then
    match bus.rom with
    | some m => (m.read_8 bus address, bus)
    | none => (.err .Access, bus)
  else if RAM_START ≤ address ∧ address ≤ RAM_END then
    if bus.map_rom then
      match bus.rom with
      | some m => (m.read_8 bus address, bus)
      | none => (.err .Access, bus)
    else
      match bus.ram with
      | some m => (m.read_8 bus address, bus)
      | none => (.err .Access, bus)
  else if DEBUG_RAM_START ≤ address ∧ address ≤ DEBUG_RAM_END then
    match bus.debug_ram with
    | some m => (m.read_8 bus address, bus)
    | none => (.err .Access, bus)
  else if SOUND_START ≤ address ∧ address ≤ SOUND_END then
    match bus.sound with
    | some _ => (.ok 0, bus)
    | none => (.err .Access, bus)
  else if ACIA_START ≤ address ∧ address ≤ ACIA_END then
    match bus.acia with
    | some a =>
      let (r, a) := a.read_8 address
      (r, { bus with acia := some a })
    | none => (.err .Access, bus)
  else if VIDEO_START ≤ address ∧ address ≤ VIDEO_END then
    match bus.video with
    | some _ => (.ok 0, bus)
    | none => (.err .Access, bus)
  else if VRAM_START ≤ address ∧ address ≤ VRAM_END then
    match bus.video_ram with
    | some m => (m.read_8 bus address, bus)
    | none => (.err .Access, bus)
  else if DUART_START ≤ address ∧ address ≤ DUART_END then
    match bus.duart with
    | some d =>
      let (r, d) := d.read_8 address
      (r, { bus with duart := some d })
    | none => (.err .Access, bus)
  else if FPU_START ≤ address ∧ address ≤ FPU_END then
    match bus.fpu with
    | some _ => (.ok 0, bus)
    | none => (.err .Access, bus)
  else if DIAG_START ≤ address ∧ address ≤ DIAG_END then
    match bus.diag with
    | some m => (m.read_8 bus address, bus)
    | none => (.err .Access, bus)
  else if MMU_START ≤ address ∧ address ≤ MMU_END then
    match bus.mmu with
    | some _ => (.ok 0, bus)
    | none => (.err .Access, bus)
  else if PT_START ≤ address ∧ address ≤ PT_END then
    match bus.mmu with
    | some _ => (.ok 0, bus)
    | none => (.err .Access, bus)
  else if SCSI_START ≤ address ∧ address ≤ SCSI_END then
    match bus.scsi with
    | some s =>
      let (r, s) := s.read_8 address
      (r, { bus with scsi := some s })
    | none => (.err .Access, bus)
  else if MOUSE_START ≤ address ∧ address ≤ MOUSE_END then
    match bus.mouse with
    | some _ => (.ok 0, bus)
    | none => (.err .Access, bus)
  else if TIMER_START ≤ address ∧ address ≤ TIMER_END then
    match bus.timer with
    | some _ => (.ok 0, bus)
    | none => (.err .Access, bus)
  else if CAL_START ≤ address ∧ address ≤ CAL_END then
    match bus.cal with
    | some _ => (.ok 0, bus)
    | none => (.err .Access, bus)
  else (.err .Access, bus)

/-- Bus::read_16: same dispatch; only Memory and the DUART implement a
16-bit read, every other device inherits the Ok(0) trait default. -/
def Bus.read_16 (bus : Bus) (address : Nat) : RResult Nat × Bus :=
  if ROM_START ≤ address ∧ address ≤ ROM_END then
    match bus.rom with
    | some m => (m.read_16 bus address, bus)
    | none => (.err .Access, bus)
  else if RAM_START ≤ address ∧ address ≤ RAM_END then
    if bus.map_rom then
      match bus.rom with
      | some m => (m.read_16 bus address, bus)
      | none => (.err .Access, bus)
    else
      match bus.ram with
      | some m => (m.read_16 bus address, bus)
      | none => (.err .Access, bus)
  else if DEBUG_RAM_START ≤ address ∧ address ≤ DEBUG_RAM_END then
    match bus.debug_ram with
    | some m => (m.read_16 bus address, bus)
    | none => (.err .Access, bus)
  else if SOUND_START ≤ address ∧ address ≤ SOUND_END then
    match bus.sound with
    | some _ => (.ok 0, bus)
    | none => (.err .Access, bus)
  else if ACIA_START ≤ address ∧ address ≤ ACIA_END then
    match bus.acia with
    | some _ => (.ok 0, bus)
    | none => (.err .Access, bus)
  else if VIDEO_START ≤ address ∧ address ≤ VIDEO_END then
    match bus.video with
    | some _ => (.ok 0, bus)
    | none => (.err .Access, bus)
  else if VRAM_START ≤ address ∧ address ≤ VRAM_END then
    match bus.video_ram with
    | some m => (m.read_16 bus address, bus)
    | none => (.err .Access, bus)
  else if DUART_START ≤ address ∧ address ≤ DUART_END then
    match bus.duart with
    | some d =>
      let (r, d) := d.read_16 address
      (r, { bus with duart := some d })
    | none => (.err .Access, bus)
  else if FPU_START ≤ address ∧ address ≤ FPU_END then
    match bus.fpu with
    | some _ => (.ok 0, bus)
    | none => (.err .Access, bus)
  else if DIAG_START ≤ address ∧ address ≤ DIAG_END then
    match bus.diag with
    | some m => (m.read_16 bus address, bus)
    | none => (.err .Access, bus)
  else if MMU_START ≤ address ∧ address ≤ MMU_END then
    match bus.mmu with
    | some _ => (.ok 0, bus)
    | none => (.err .Access, bus)
  else if PT_START ≤ address ∧ address ≤ PT_END then
    match bus.mmu with
    | some _ => (.ok 0, bus)
    | none => (.err .Access, bus)
  else if SCSI_START ≤ address ∧ address ≤ SCSI_END then
    match bus.scsi with
    | some _ => (.ok 0, bus)
    | none => (.err .Access, bus)
  else if MOUSE_START ≤ address ∧ address ≤ MOUSE_END then
    match bus.mouse with
    | some _ => (.ok 0, bus)
    | none => (.err .Access, bus)
  else if TIMER_START ≤ address ∧ address ≤ TIMER_END then
    match bus.timer with
    | some _ => (.ok 0, bus)
    | none => (.err .Access, bus)
  else if CAL_START ≤ address ∧ address ≤ CAL_END then
    match bus.cal with
    | some _ => (.ok 0, bus)
    | none => (.err .Access, bus)
  else (.err .Access, bus)

/-- Bus::read_32: only Memory implements a 32-bit read; every other device
inherits the Ok(0) trait default. -/
def Bus.read_32 (bus : Bus) (address : Nat) : RResult Nat × Bus :=
  if ROM_START ≤ address ∧ address ≤ ROM_END then
    match bus.rom with
    | some m => (m.read_32 bus address, bus)
    | none => (.err .Access, bus)
  else if RAM_START ≤ address ∧ address ≤ RAM_END then
    if bus.map_rom then
      match bus.rom with
      | some m => (m.read_32 bus address, bus)
      | none => (.err .Access, bus)
    else
      match bus.ram with
      | some m => (m.read_32 bus address, bus)
      | none => (.err .Access, bus)
  else if DEBUG_RAM_START ≤ address ∧ address ≤ DEBUG_RAM_END then
    match bus.debug_ram with
    | some m => (m.read_32 bus address, bus)
    | none => (.err .Access, bus)
  else if SOUND_START ≤ address ∧ address ≤ SOUND_END then
    match bus.sound with
    | some _ => (.ok 0, bus)
    | none => (.err .Access, bus)
  else if ACIA_START ≤ address ∧ address ≤ ACIA_END then
    match bus.acia with
    | some _ => (.ok 0, bus)
    | none => (.err .Access, bus)
  else if VIDEO_START ≤ address ∧ address ≤ VIDEO_END then
    match bus.video with
    | some _ => (.ok 0, bus)
    | none => (.err .Access, bus)
  else if VRAM_START ≤ address ∧ address ≤ VRAM_END then
    match bus.video_ram with
    | some m => (m.read_32 bus address, bus)
    | none => (.err .Access, bus)
  else if DUART_START ≤ address ∧ address ≤ DUART_END then
    match bus.duart with
    | some _ => (.ok 0, bus)
    | none => (.err .Access, bus)
  else if FPU_START ≤ address ∧ address ≤ FPU_END then
    match bus.fpu with
    | some _ => (.ok 0, bus)
    | none => (.err .Access, bus)
  else if DIAG_START ≤ address ∧ address ≤ DIAG_END then
    match bus.diag with
    | some m => (m.read_32 bus address, bus)
    | none => (.err .Access, bus)
  else if MMU_START ≤ address ∧ address ≤ MMU_END then
    match bus.mmu with
    | some _ => (.ok 0, bus)
    | none => (.err .Access, bus)
  else if PT_START ≤ address ∧ address ≤ PT_END then
    match bus.mmu with
    | some _ => (.ok 0, bus)
    | none => (.err .Access, bus)
  else if SCSI_START ≤ address ∧ address ≤ SCSI_END then
    match bus.scsi with
    | some _ => (.ok 0, bus)
    | none => (.err .Access, bus)
  else if MOUSE_START ≤ address ∧ address ≤ MOUSE_END then
    match bus.mouse with
    | some _ => (.ok 0, bus)
    | none => (.err .Access, bus)
  else if TIMER_START ≤ address ∧ address ≤ TIMER_END then
    match bus.timer with
    | some _ => (.ok 0, bus)
    | none => (.err .Access, bus)
  else if CAL_START ≤ address ∧ address ≤ CAL_END then
    match bus.cal with
    | some _ => (.ok 0, bus)
    | none => (.err .Access, bus)
  else (.err .Access, bus)

/-- Bus::write_8.  The service queue and the current instant are threaded
explicitly because a SCSI command write may schedule a request on the
process-wide queue; a sound write mutates the bus itself (clearing
map_rom). -/
def Bus.write_8 (bus : Bus) (q : ServiceQueue) (now address value : Nat) :
    RResult Unit × Bus × ServiceQueue :=
  if ROM_START ≤ address ∧ address ≤ ROM_END then
    match bus.rom with
    | some m =>
      let (r, m) := m.write_8 bus address value
      (r, { bus with rom := some m }, q)
    | none => (.err .Access, bus, q)
  else if RAM_START ≤ address ∧ address ≤ RAM_END then
    if bus.map_rom then
      match bus.rom with
      | some m =>
        let (r, m) := m.write_8 bus address value
        (r, { bus with rom := some m }, q)
      | none => (.err .Access, bus, q)
    else
      match bus.ram with
      | some m =>
        let (r, m) := m.write_8 bus address value
        (r, { bus with ram := some m }, q)
      | none => (.err .Access, bus, q)
  else if DEBUG_RAM_START ≤ address ∧ address ≤ DEBUG_RAM_END then
    match bus.debug_ram with
    | some m =>
      let (r, m) := m.write_8 bus address value
      (r, { bus with debug_ram := some m }, q)
    | none => (.err .Access, bus, q)
  else if SOUND_START ≤ address ∧ address ≤ SOUND_END then
    match bus.sound with
    | some _ =>
      let (r, bus) := Sound.write bus address value
      (r, bus, q)
    | none => (.err .Access, bus, q)
  else if ACIA_START ≤ address ∧ address ≤ ACIA_END then
    match bus.acia with
    | some a =>
      let (r, a, _) := a.write_8 address value
      (r, { bus with acia := some a }, q)
    | none => (.err .Access, bus, q)
  else if VIDEO_START ≤ address ∧ address ≤ VIDEO_END then
    match bus.video with
    | some _ => (.ok (), bus, q)
    | none => (.err .Access, bus, q)
  else if VRAM_START ≤ address ∧ address ≤ VRAM_END then
    match bus.video_ram with
    | some m =>
      let (r, m) := m.write_8 bus address value
      (r, { bus with video_ram := some m }, q)
    | none => (.err .Access, bus, q)
  else if DUART_START ≤ address ∧ address ≤ DUART_END then
    match bus.duart with
    | some d =>
      let (r, d) := d.write_8 address value
      (r, { bus with duart := some d }, q)
    | none => (.err .Access, bus, q)
  else if FPU_START ≤ address ∧ address ≤ FPU_END then
    match bus.fpu with
    | some _ => (.ok (), bus, q)
    | none => (.err .Access, bus, q)
  else if DIAG_START ≤ address ∧ address ≤ DIAG_END then
    match bus.diag with
    | some m =>
      let (r, m) := m.write_8 bus address value
      (r, { bus with diag := some m }, q)
    | none => (.err .Access, bus, q)
  else if MMU_START ≤ address ∧ address ≤ MMU_END then
    match bus.mmu with
    | some _ => (.ok (), bus, q)
    | none => (.err .Access, bus, q)
  else if PT_START ≤ address ∧ address ≤ PT_END then
    match bus.mmu with
    | some _ => (.ok (), bus, q)
    | none => (.err .Access, bus, q)
  else if SCSI_START ≤ address ∧ address ≤ SCSI_END then
    match bus.scsi with
    | some s =>
      let (r, s, q) := s.write_8 q now address value
      (r, { bus with scsi := some s }, q)
    | none => (.err .Access, bus, q)
  else if MOUSE_START ≤ address ∧ address ≤ MOUSE_END then
    match bus.mouse with
    | some _ => (.ok (), bus, q)
    | none => (.err .Access, bus, q)
  else if TIMER_START ≤ address ∧ address ≤ TIMER_END then
    match bus.timer with
    | some _ => (.ok (), bus, q)
    | none => (.err .Access, bus, q)
  else if CAL_START ≤ address ∧ address ≤ CAL_END then
    match bus.cal with
    | some _ => (.ok (), bus, q)
    | none => (.err .Access, bus, q)
  else (.err .Access, bus, q)

/-- Bus::write_16: only Memory implements a 16-bit write and only the sound
device overrides it with its un-mapping side effect; every other device
inherits the Ok(()) trait default. -/
def Bus.write_16 (bus : Bus) (q : ServiceQueue) (_now address value : Nat) :
    RResult Unit × Bus × ServiceQueue :=
  if ROM_START ≤ address ∧ address ≤ ROM_END then
    match bus.rom with
    | some m =>
      let (r, m) := m.write_16 bus address value
      (r, { bus with rom := some m }, q)
    | none => (.err .Access, bus, q)
  else if RAM_START ≤ address ∧ address ≤ RAM_END then
    if bus.map_rom then
      match bus.rom with
      | some m =>
        let (r, m) := m.write_16 bus address value
        (r, { bus with rom := some m }, q)
      | none => (.err .Access, bus, q)
    else
      match bus.ram with
      | some m =>
        let (r, m) := m.write_16 bus address value
        (r, { bus with ram := some m }, q)
      | none => (.err .Access, bus, q)
  else if DEBUG_RAM_START ≤ address ∧ address ≤ DEBUG_RAM_END then
    match bus.debug_ram with
    | some m =>
      let (r, m) := m.write_16 bus address value
      (r, { bus with debug_ram := some m }, q)
    | none => (.err .Access, bus, q)
  else if SOUND_START ≤ address ∧ address ≤ SOUND_END then
    match bus.sound with
    | some _ =>
      let (r, bus) := Sound.write bus address value
      (r, bus, q)
    | none => (.err .Access, bus, q)
  else if ACIA_START ≤ address ∧ address ≤ ACIA_END then
    match bus.acia with
    | some _ => (.ok (), bus, q)
    | none => (.err .Access, bus, q)
  else if VIDEO_START ≤ address ∧ address ≤ VIDEO_END then
    match bus.video with
    | some _ => (.ok (), bus, q)
    | none => (.err .Access, bus, q)
  else if VRAM_START ≤ address ∧ address ≤ VRAM_END then
    match bus.video_ram with
    | some m =>
      let (r, m) := m.write_16 bus address value
      (r, { bus with video_ram := some m }, q)
    | none => (.err .Access, bus, q)
  else if DUART_START ≤ address ∧ address ≤ DUART_END then
    match bus.duart with
    | some _ => (.ok (), bus, q)
    | none => (.err .Access, bus, q)
  else if FPU_START ≤ address ∧ address ≤ FPU_END then
    match bus.fpu with
    | some _ => (.ok (), bus, q)
    | none => (.err .Access, bus, q)
  else if DIAG_START ≤ address ∧ address ≤ DIAG_END then
    match bus.diag with
    | some m =>
      let (r, m) := m.write_16 bus address value
      (r, { bus with diag := some m }, q)
    | none => (.err .Access, bus, q)
  else if MMU_START ≤ address ∧ address ≤ MMU_END then
    match bus.mmu with
    | some _ => (.ok (), bus, q)
    | none => (.err .Access, bus, q)
  else if PT_START ≤ address ∧ address ≤ PT_END then
    match bus.mmu with
    | some _ => (.ok (), bus, q)
    | none => (.err .Access, bus, q)
  else if SCSI_START ≤ address ∧ address ≤ SCSI_END then
    match bus.scsi with
    | some _ => (.ok (), bus, q)
    | none => (.err .Access, bus, q)
  else if MOUSE_START ≤ address ∧ address ≤ MOUSE_END then
    match bus.mouse with
    | some _ => (.ok (), bus, q)
    | none => (.err .Access, bus, q)
  else if TIMER_START ≤ address ∧ address ≤ TIMER_END then
    match bus.timer with
    | some _ => (.ok (), bus, q)
    | none => (.err .Access, bus, q)
  else if CAL_START ≤ address ∧ address ≤ CAL_END then
    match bus.cal with
    | some _ => (.ok (), bus, q)
    | none => (.err .Access, bus, q)
  else (.err .Access, bus, q)

/-- Bus::write_32: as write_16 at 32-bit width. -/
def Bus.write_32 (bus : Bus) (q : ServiceQueue) (_now address value : Nat) :
    RResult Unit × Bus × ServiceQueue :=
  if ROM_START ≤ address ∧ address ≤ ROM_END then
    match bus.rom with
    | some m =>
      let (r, m) := m.write_32 bus address value
      (r, { bus with rom := some m }, q)
    | none => (.err .Access, bus, q)
  else if RAM_START ≤ address ∧ address ≤ RAM_END then
    if bus.map_rom then
      match bus.rom with
      | some m =>
        let (r, m) := m.write_32 bus address value
        (r, { bus with rom := some m }, q)
      | none => (.err .Access, bus, q)
    else
      match bus.ram with
      | some m =>
        let (r, m) := m.write_32 bus address value
        (r, { bus with ram := some m }, q)
      | none => (.err .Access, bus, q)
  else if DEBUG_RAM_START ≤ address ∧ address ≤ DEBUG_RAM_END then
    match bus.debug_ram with
    | some m =>
      let (r, m) := m.write_32 bus address value
      (r, { bus with debug_ram := some m }, q)
    | none => (.err .Access, bus, q)
  else if SOUND_START ≤ address ∧ address ≤ SOUND_END then
    match bus.sound with
    | some _ =>
      let (r, bus) := Sound.write bus address value
      (r, bus, q)
    | none => (.err .Access, bus, q)
  else if ACIA_START ≤ address ∧ address ≤ ACIA_END then
    match bus.acia with
    | some _ => (.ok (), bus, q)
    | none => (.err .Access, bus, q)
  else if VIDEO_START ≤ address ∧ address ≤ VIDEO_END then
    match bus.video with
    | some _ => (.ok (), bus, q)
    | none => (.err .Access, bus, q)
  else if VRAM_START ≤ address ∧ address ≤ VRAM_END then
    match bus.video_ram with
    | some m =>
      let (r, m) := m.write_32 bus address value
      (r, { bus with video_ram := some m }, q)
    | none => (.err .Access, bus, q)
  else if DUART_START ≤ address ∧ address ≤ DUART_END then
    match bus.duart with
    | some _ => (.ok (), bus, q)
    | none => (.err .Access, bus, q)
  else if FPU_START ≤ address ∧ address ≤ FPU_END then
    match bus.fpu with
    | some _ => (.ok (), bus, q)
    | none => (.err .Access, bus, q)
  else if DIAG_START ≤ address ∧ address ≤ DIAG_END then
    match bus.diag with
    | some m =>
      let (r, m) := m.write_32 bus address value
      (r, { bus with diag := some m }, q)
    | none => (.err .Access, bus, q)
  else if MMU_START ≤ address ∧ address ≤ MMU_END then
    match bus.mmu with
    | some _ => (.ok (), bus, q)
    | none => (.err .Access, bus, q)
  else if PT_START ≤ address ∧ address ≤ PT_END then
    match bus.mmu with
    | some _ => (.ok (), bus, q)
    | none => (.err .Access, bus, q)
  else if SCSI_START ≤ address ∧ address ≤ SCSI_END then
    match bus.scsi with
    | some _ => (.ok (), bus, q)
    | none => (.err .Access, bus, q)
  else if MOUSE_START ≤ address ∧ address ≤ MOUSE_END then
    match bus.mouse with
    | some _ => (.ok (), bus, q)
    | none => (.err .Access, bus, q)
  else if TIMER_START ≤ address ∧ address ≤ TIMER_END then
    match bus.timer with
    | some _ => (.ok (), bus, q)
    | none => (.err .Access, bus, q)
  else if CAL_START ≤ address ∧ address ≤ CAL_END then
    match bus.cal with
    | some _ => (.ok (), bus, q)
    | none => (.err .Access, bus, q)
  else (.err .Access, bus, q)

/-- m68k_read_disassembler_8 from src/bus.rs: the disassembly-support read
entry point locks the global bus and performs an ordinary Bus::read_8,
substituting 0 for any error (a panic aborts the process). -/
def m68k_read_disassembler_8 (bus : Bus) (address : Nat) : RResult Nat × Bus :=
  match bus.read_8 address with
  | (.ok b, bus) => (.ok b, bus)
  | (.err _, bus) => (.ok 0, bus)
  | (.panicked, bus) => (.panicked, bus)

/-- m68k_read_disassembler_16 from src/bus.rs. -/
def m68k_read_disassembler_16 (bus : Bus) (address : Nat) : RResult Nat × Bus :=
  match bus.read_16 address with
  | (.ok b, bus) => (.ok b, bus)
  | (.err _, bus) => (.ok 0, bus)
  | (.panicked, bus) => (.panicked, bus)

/-- m68k_read_disassembler_32 from src/bus.rs. -/
def m68k_read_disassembler_32 (bus : Bus) (address : Nat) : RResult Nat × Bus :=
  match bus.read_32 address with
  | (.ok b, bus) => (.ok b, bus)
  | (.err _, bus) => (.ok 0, bus)
  | (.panicked, bus) => (.panicked, bus)

/-- Acia::new from src/acia.rs. -/
def Acia.new (st : AciaState) : Acia :=
  { state := st, data := 0, control := 0, command := 0, status := 0 }

/-- Apply a sequence of SCSI Data1-register writes (the command-byte path
of src/scsi.rs write_8), stopping at the first non-Ok outcome.  Data1
writes never touch the service queue, so an empty queue at instant 0 is
passed. -/
def writeData1List : Scsi → List Nat → RResult Unit × Scsi
  | s, [] => (.ok (), s)
  | s, v :: vs =>
    match Scsi.write_8 s ⟨[]⟩ 0 REG_DATA1 v with
    | (.ok _, s, _) => writeData1List s vs
    | (r, s, _) => (r, s)

/-- A SCSI controller with the data-register-full aux-status bit latched. -/
def scsiDF : Scsi := { Scsi.new with aux_stat := 0x80 }

/-- A bus holding only that SCSI controller. -/
def busDF : Bus := { Bus.empty with scsi := some scsiDF }

/-- A bus holding only a freshly reset DUART. -/
def busDuart : Bus := { Bus.empty with duart := some Duart.new }

/-- A small writable memory device: 256 bytes covering addresses 0..0xff. -/
def memSmall : Memory :=
  { read_only := false, start_address := 0, end_address := 0xff
    size := 0x100, mem := List.replicate 0x100 0 }

/-- The same device marked read-only. -/
def memSmallRO : Memory := { memSmall with read_only := true }

/-- The debug RAM exactly as Bus::new constructs it: a 64 KiB claimed
range over a 4 KiB backing store. -/
def debugRam : Memory :=
  { read_only := false, start_address := DEBUG_RAM_START
    end_address := DEBUG_RAM_END, size := DEBUG_RAM_SIZE
    mem := List.replicate DEBUG_RAM_SIZE 0 }

/-- A boot ROM device as Bus::new constructs it (backing bytes shortened
to 512 entries of 5; only indices below 0x200 are exercised). -/
def romW : Memory :=
  { read_only := true, start_address := ROM_START, end_address := ROM_END
    size := ROM_SIZE, mem := List.replicate 0x200 5 }

/-- A RAM device with the claimed range of Bus::new (backing bytes
shortened to 512 entries of 7). -/
def ramW : Memory :=
  { read_only := false, start_address := RAM_START, end_address := RAM_END
    size := RAM_SIZE, mem := List.replicate 0x200 7 }

/-- A bus in the power-on configuration relevant to the low-memory alias:
map_rom set, ROM, RAM and sound device present. -/
def busBoot : Bus :=
  { Bus.empty with map_rom := true, rom := some romW, ram := some ramW
                   sound := some () }

/-- An ACIA whose shared transmit ring buffer is full and whose reader has
registered a waker. -/
def aciaFull : Acia :=
  Acia.new { AciaState.new with tx_data := List.replicate 8 0, waker := some () }

/-- A two-element service queue with deadlines 5 and 10 ns. -/
def queueTwo : ServiceQueue := ⟨[⟨.Scsi, 5⟩, ⟨.Scsi, 10⟩]⟩

/-! Helper lemmas shared by several claims. -/

theorem and255_eq_mod (x : Nat) : x &&& 255 = x % 256 := by
  have h := Nat.and_pow_two_sub_one_eq_mod x 8
  norm_num at h
  exact h

theorem shl8_lor_eq (a b : Nat) (hb : b < 256) : a <<< 8 ||| b = 256 * a + b := by
  have hb' : b < 2 ^ 8 := by omega
  calc a <<< 8 ||| b = 2 ^ 8 * a ||| b := by rw [Nat.shiftLeft_eq, Nat.mul_comm]
    _ = 2 ^ 8 * a + b := (Nat.mul_add_lt_is_or hb' a).symm
    _ = 256 * a + b := by norm_num

theorem shl16_lor_eq (a b : Nat) (hb : b < 65536) : a <<< 16 ||| b = 65536 * a + b := by
  have hb' : b < 2 ^ 16 := by omega
  calc a <<< 16 ||| b = 2 ^ 16 * a ||| b := by rw [Nat.shiftLeft_eq, Nat.mul_comm]
    _ = 2 ^ 16 * a + b := (Nat.mul_add_lt_is_or hb' a).symm
    _ = 65536 * a + b := by norm_num

theorem shr_and255 (v k : Nat) : (v >>> k) &&& 255 = v / 2 ^ k % 256 := by
  rw [and255_eq_mod, Nat.shiftRight_eq_div_pow]

theorem getD_set_self (l : List Nat) (i v : Nat) (h : i < l.length) :
    (l.set i v).getD i 0 = v := by
  simp [List.getD_eq_getElem?_getD, List.getElem?_set_self h]

theorem getD_set_ne (l : List Nat) (i j v : Nat) (h : i ≠ j) :
    (l.set i v).getD j 0 = l.getD j 0 := by
  simp [List.getD_eq_getElem?_getD, List.getElem?_set_ne h]

theorem mem_insertByWhen (r : ServiceRequest) (l : List ServiceRequest) :
    r ∈ insertByWhen r l := by
  induction l with
  | nil => simp [insertByWhen]
  | cons s rest ih =>
    by_cases h : r.when ≤ s.when <;> simp [insertByWhen, h, ih]

/-- C10: a write to the ACIA DATA register always returns Ok.  When the
shared 8-byte transmit ring buffer is already full the pushed byte is
silently discarded and the queue contents are unchanged; otherwise the byte
is appended.  In every case, if a pending reader has registered a waker,
that waker is woken. -/
theorem c10_acia_data_write (a : Acia) (v : Nat) :
    (Acia.write_8 a DATA_REG v).1 = .ok () ∧
    (8 ≤ a.state.tx_data.length →
      (Acia.write_8 a DATA_REG v).2.1.state.tx_data = a.state.tx_data) ∧
    (a.state.tx_data.length < 8 →
      (Acia.write_8 a DATA_REG v).2.1.state.tx_data = a.state.tx_data ++ [v]) ∧
    (Acia.write_8 a DATA_REG v).2.2 = a.state.waker.isSome := by
  refine ⟨by simp [Acia.write_8], ?_, ?_, by simp [Acia.write_8]⟩
  · intro h
    simp [Acia.write_8, aciaPushBack, Nat.not_lt.mpr h]
  · intro h
    simp [Acia.write_8, aciaPushBack, h]

/-- C10 witness: on an ACIA whose transmit queue holds 8 bytes and whose
reader registered a waker, the DATA write returns Ok, the queue is
unchanged, and the waker is woken. -/
theorem c10_acia_data_write_witness :
    (Acia.write_8 aciaFull DATA_REG 0x41).1 = .ok () ∧
    (8 ≤ aciaFull.state.tx_data.length ∧
      (Acia.write_8 aciaFull DATA_REG 0x41).2.1.state.tx_data =
        aciaFull.state.tx_data) ∧
    (Acia.write_8 aciaFull DATA_REG 0x41).2.2 = aciaFull.state.waker.isSome := by
  have h := c10_acia_data_write aciaFull 0x41
  exact ⟨h.1, ⟨by decide, h.2.1 (by decide)⟩, h.2.2.2⟩

/-- C6: for the deadline-ordered service queue, take returns None while the
earliest queued deadline has not elapsed; once the current instant is past
that deadline, take removes and returns exactly that earliest entry; and a
repeated take made before the next-earliest remaining deadline elapses
returns None again. -/
theorem c6_service_queue_take (q : ServiceQueue) (now now2 : Nat)
    (r s r2 : ServiceRequest) (rest rest2 : List ServiceRequest)
    (hsorted : q.queue.Pairwise (fun x y => x.when ≤ y.when))
    (hq : q.queue = r :: rest) :
    (now ≤ r.when → q.take now = (none, q)) ∧
    (r.when < now → q.take now = (some r, ⟨rest⟩)) ∧
    (s ∈ q.queue → r.when ≤ s.when) ∧
    (rest = r2 :: rest2 → now2 ≤ r2.when →
      ServiceQueue.take ⟨rest⟩ now2 = (none, ⟨rest⟩)) := by
  obtain ⟨l⟩ := q
  simp only [ServiceQueue.mk.injEq] at hq
  subst hq
  refine ⟨?_, ?_, ?_, ?_⟩
  · intro h
    simp [ServiceQueue.take, Nat.not_lt.mpr h]
  · intro h
    simp [ServiceQueue.take, h]
  · intro hs
    rcases List.mem_cons.mp hs with h | h
    · exact h ▸ Nat.le_refl _
    · exact (List.pairwise_cons.mp hsorted).1 s h
  · intro hrest h2
    subst hrest
    simp [ServiceQueue.take, Nat.not_lt.mpr h2]

/-- C6 witness: with deadlines 5 and 10 and the clock at 6, take pops the
deadline-5 entry; a repeated take at instant 7 returns None. -/
theorem c6_service_queue_take_witness :
    queueTwo.queue.Pairwise (fun x y => x.when ≤ y.when) ∧
    queueTwo.take 6 = (some ⟨.Scsi, 5⟩, ⟨[⟨.Scsi, 10⟩]⟩) ∧
    (⟨.Scsi, 10⟩ : ServiceRequest).when ≥ (⟨.Scsi, 5⟩ : ServiceRequest).when ∧
    ServiceQueue.take ⟨[⟨.Scsi, 10⟩]⟩ 7 = (none, ⟨[⟨.Scsi, 10⟩]⟩) := by
  have h := c6_service_queue_take queueTwo 6 7 ⟨.Scsi, 5⟩ ⟨.Scsi, 10⟩ ⟨.Scsi, 10⟩
    [⟨.Scsi, 10⟩] [] (by decide) (by decide)
  exact ⟨by decide, h.2.1 (by decide), h.2.2.1 (by decide), h.2.2.2 (by decide) (by decide)⟩

/-- C7 counterexample: writing 0xd0 to the DUART clock-select register
CSRA forms index 13, which is outside both 13-entry delay tables, so the
write faults (the Rust array index panics) instead of completing. -/
theorem c7_csra_index13_faults :
    (Duart.write_8 Duart.new CSRA 0xd0).1 = .panicked ∧
    ((0xd0 >>> 4) &&& 0xf) = 13 := by decide

/-- C7 amended: for every DUART state and written value, the index formed
from the low 4 bits of the value's upper nibble is an in-bounds entry of
the selected 13-entry delay table exactly when it is at most 12; for those
13 index values the CSRA write completes and stores the looked-up
nanosecond delay in port A, while for index values 13 to 15 the lookup
indexes past the table and the write faults. -/
theorem c7_csra_lookup_bounded (d : Duart) (value : Nat) :
    ((value >>> 4) &&& 0xf < 13 →
      Duart.write_8 d CSRA value =
        (.ok (), { d with port_a := { d.port_a with
          char_delay := (if d.acr &&& 0x80 = 0 then DELAY_RATES_A
            else DELAY_RATES_B).getD ((value >>> 4) &&& 0xf) 0 } })) ∧
    (13 ≤ (value >>> 4) &&& 0xf →
      (Duart.write_8 d CSRA value).1 = .panicked) := by
  have hne : CSRA ≠ MR12A := by decide
  have hA : DELAY_RATES_A.length = 13 := by decide
  have hB : DELAY_RATES_B.length = 13 := by decide
  constructor
  · intro h
    unfold Duart.write_8
    rw [if_neg hne, if_pos rfl]
    by_cases hacr : d.acr &&& 0x80 = 0
    · have hlt : (value >>> 4) &&& 0xf < DELAY_RATES_A.length := by omega
      simp [hacr, List.getElem?_eq_getElem hlt, List.getD_eq_getElem?_getD]
    · have hlt : (value >>> 4) &&& 0xf < DELAY_RATES_B.length := by omega
      simp [hacr, List.getElem?_eq_getElem hlt, List.getD_eq_getElem?_getD]
  · intro h
    unfold Duart.write_8
    rw [if_neg hne, if_pos rfl]
    by_cases hacr : d.acr &&& 0x80 = 0
    · have hnone : DELAY_RATES_A[(value >>> 4) &&& 0xf]? = none :=
        List.getElem?_eq_none (by omega)
      simp [hacr, hnone]
    · have hnone : DELAY_RATES_B[(value >>> 4) &&& 0xf]? = none :=
        List.getElem?_eq_none (by omega)
      simp [hacr, hnone]

/-- C7 witness: value 0x50 selects index 5; on a fresh DUART (ACR bit 7
clear) the write stores table A entry 5, 13333334 ns. -/
theorem c7_csra_lookup_bounded_witness :
    (0x50 >>> 4) &&& 0xf < 13 ∧
    Duart.write_8 Duart.new CSRA 0x50 =
      (.ok (), { Duart.new with port_a := { Duart.new.port_a with
        char_delay := (if Duart.new.acr &&& 0x80 = 0 then DELAY_RATES_A
          else DELAY_RATES_B).getD ((0x50 >>> 4) &&& 0xf) 0 } }) :=
  ⟨by decide, (c7_csra_lookup_bounded Duart.new 0x50).1 (by decide)⟩

/-- C9 counterexample: starting from a freshly constructed controller
(command pointer 0), seventeen consecutive Data1-register writes overflow
the 16-byte scsi_cmd buffer: the seventeenth write indexes scsi_cmd[16]
and faults. -/
theorem c9_seventeen_data1_writes_fault :
    (writeData1List Scsi.new (List.replicate 17 0)).1 = .panicked ∧
    (writeData1List Scsi.new (List.replicate 16 0)).2.cmd_ptr = 16 := by decide

/-- C9 amended: the command-byte pointer stays a valid index only for
bounded runs: any sequence of consecutive Data1 writes that starts at
cmd_ptr p and has length at most 16 - p succeeds, storing every byte in
bounds and leaving cmd_ptr advanced by the run length (so a pointer reset
admits at most 16 writes before the buffer end is passed). -/
theorem c9_data1_writes_bounded (s : Scsi) (vs : List Nat)
    (hlen : s.scsi_cmd.length = 16) (hn : s.cmd_ptr + vs.length ≤ 16) :
    (writeData1List s vs).1 = .ok () ∧
    (writeData1List s vs).2.cmd_ptr = s.cmd_ptr + vs.length ∧
    (writeData1List s vs).2.scsi_cmd.length = 16 := by
  induction vs generalizing s with
  | nil => simpa [writeData1List] using hlen
  | cons v vs ih =>
    have hne : REG_DATA1 ≠ REG_ADDRESS := by decide
    have hlt : s.cmd_ptr < s.scsi_cmd.length := by simp at hn ⊢; omega
    have hstep : Scsi.write_8 s ⟨[]⟩ 0 REG_DATA1 v =
        (.ok (), { s with scsi_cmd := s.scsi_cmd.set s.cmd_ptr v
                          cmd_ptr := s.cmd_ptr + 1 }, ⟨[]⟩) := by
      unfold Scsi.write_8
      rw [if_neg hne, if_pos rfl, if_pos hlt]
    have ih' := ih { s with scsi_cmd := s.scsi_cmd.set s.cmd_ptr v
                            cmd_ptr := s.cmd_ptr + 1 }
      (by simpa using hlen) (by simp at hn ⊢; omega)
    simp only [writeData1List, hstep] at *
    exact ⟨ih'.1, by rw [ih'.2.1]; simp at hn ⊢; omega, ih'.2.2⟩

/-- C9 witness: sixteen Data1 writes from a fresh controller all succeed
and leave cmd_ptr at 16. -/
theorem c9_data1_writes_bounded_witness :
    Scsi.new.scsi_cmd.length = 16 ∧
    Scsi.new.cmd_ptr + (List.replicate 16 0xaa).length ≤ 16 ∧
    (writeData1List Scsi.new (List.replicate 16 0xaa)).1 = .ok () ∧
    (writeData1List Scsi.new (List.replicate 16 0xaa)).2.cmd_ptr =
      Scsi.new.cmd_ptr + (List.replicate 16 0xaa).length := by
  have h := c9_data1_writes_bounded Scsi.new (List.replicate 16 0xaa)
    (by decide) (by decide)
  exact ⟨by decide, by decide, h.1, h.2.1⟩

/-- C2 counterexample: a 16-bit read at the odd address 0x7b4001 is
dispatched to the DUART, whose read_16 falls back to the 8-bit read and
returns Ok 0 without any alignment check, so not every device returns
Alignment on an odd offset. -/
theorem c2_duart_odd_read16_not_alignment :
    (Bus.read_16 busDuart 0x7b4001).1 = .ok 0 ∧
    (Bus.read_16 busDuart 0x7b4001).1 ≠ .err .Alignment := by decide

/-- C2 amended: for Memory devices, every 16-bit or 32-bit read or write
whose computed offset is odd returns the Alignment error and leaves the
backing store (indeed the whole device) unchanged; devices that are not
Memory (the DUART fallback and the IoDevice trait defaults) perform no
alignment check. -/
theorem c2_memory_odd_offset_alignment (m : Memory) (bus : Bus) (a o v : Nat)
    (h : m.get_offset bus a = .ok o) (hodd : o % 2 = 1) :
    m.read_16 bus a = .err .Alignment ∧
    m.read_32 bus a = .err .Alignment ∧
    m.write_16 bus a v = (.err .Alignment, m) ∧
    m.write_32 bus a v = (.err .Alignment, m) := by
  refine ⟨?_, ?_, ?_, ?_⟩ <;>
    simp [Memory.read_16, Memory.read_32, Memory.write_16, Memory.write_32, h, hodd]

/-- C2 witness: on the 256-byte test memory, address 1 resolves to odd
offset 1 and every 16/32-bit access returns Alignment with the device
unchanged. -/
theorem c2_memory_odd_offset_alignment_witness :
    memSmall.get_offset Bus.empty 1 = .ok 1 ∧ 1 % 2 = 1 ∧
    memSmall.read_16 Bus.empty 1 = .err .Alignment ∧
    memSmall.write_32 Bus.empty 1 0xdead = (.err .Alignment, memSmall) := by
  have h := c2_memory_odd_offset_alignment memSmall Bus.empty 1 1 0xdead
    (by decide) (by decide)
  exact ⟨by decide, by decide, h.1, h.2.2.2⟩

/-- C1: the claim fails on the code.  The disassembler read entry point
performs an ordinary Bus::read_8, which is side-effecting: on a bus whose
SCSI controller has the data-register-full aux-status bit (AUX_DF, 0x80)
latched, a disassembler read of the SCSI Data1 register returns the data
byte but clears that latched bit, mutating machine state.  (Likewise a
disassembler read of DUART THRA pops the receive queue, and of ACIA DATA
pops the shared receive queue.) -/
theorem c1_disassembler_read_clears_scsi_data_full :
    scsiDF.aux_stat = 0x80 ∧
    (m68k_read_disassembler_8 busDF REG_DATA1).1 = .ok scsiDF.data1 ∧
    (m68k_read_disassembler_8 busDF REG_DATA1).2.scsi =
      some { scsiDF with aux_stat := 0 } ∧
    (m68k_read_disassembler_8 busDF REG_DATA1).2 ≠ busDF := by decide

/-- C8: the claim is the spec's intent but the code violates it.  On the
debug RAM exactly as Bus::new constructs it (a 4 KiB backing store behind a
64 KiB claimed range), the 32-bit read at address 0x760ffe yields offset
0xffe by modulo wrapping, passes the even-offset alignment check, and then
slices mem[0xffe..=0x1001], three bytes past the 0x1000-byte store: the
access does not stay within the backing store and the Rust slice panics
mid-emulation.  The 16-bit read at the same address stays in bounds. -/
theorem c8_debug_ram_read32_out_of_bounds :
    Memory.read_32 debugRam Bus.empty 0x760ffe = .panicked ∧
    Memory.read_16 debugRam Bus.empty 0x760ffe = .ok 0 ∧
    debugRam.get_offset Bus.empty 0x760ffe = .ok 0xffe ∧
    debugRam.mem.length = 0x1000 := by
  have hoff : debugRam.get_offset Bus.empty 0x760ffe = .ok 0xffe := by decide
  have hlen : debugRam.mem.length = 0x1000 := by
    show (List.replicate DEBUG_RAM_SIZE 0).length = 0x1000
    rw [List.length_replicate]
    decide
  refine ⟨?_, ?_, hoff, hlen⟩
  · unfold Memory.read_32
    rw [hoff]
    norm_num [hlen]
  · unfold Memory.read_16
    rw [hoff]
    norm_num [hlen]
    show readBE16 (List.replicate DEBUG_RAM_SIZE 0) 0xffe = 0
    rw [readBE16]
    rw [List.getD_eq_getElem?_getD, List.getD_eq_getElem?_getD]
    rw [List.getElem?_replicate_of_lt (by decide), List.getElem?_replicate_of_lt (by decide)]
    decide

theorem get_offset_mem_irrel (m : Memory) (l : List Nat) (bus : Bus) (a : Nat) :
    ({ m with mem := l } : Memory).get_offset bus a = m.get_offset bus a := rfl

/-- C3 counterexample: on a read-only Memory instance, a 16-bit write at an
odd offset returns Alignment, not ReadOnly, so a write does not return
ReadOnly at every width and offset. -/
theorem c3_readonly_write_not_always_readonly :
    (Memory.write_16 memSmallRO Bus.empty 1 0x1234).1 = .err .Alignment ∧
    (Memory.write_16 memSmallRO Bus.empty 1 0x1234).1 ≠ .err .ReadOnly := by decide

/-- C3 amended: for every Memory device, writing then reading back at the
same width returns the written value whenever the write succeeds (valid
offset, even for 16/32-bit, in bounds, device writable); for a read-only
instance no write of any width at any offset ever mutates the backing
store, and the result is ReadOnly whenever the offset resolves (for 16/32
bits: and is even), Alignment at resolvable odd offsets of 16/32-bit
writes, and the offset error itself when the offset does not resolve. -/
theorem c3_memory_roundtrip_and_readonly
    (m mro : Memory) (bus bus2 : Bus)
    (a o v8 v16 v32 a2 o2 a3 o3 a4 v : Nat) (e4 : BusError)
    (hro : m.read_only = false)
    (h : m.get_offset bus a = .ok o)
    (hro2 : mro.read_only = true)
    (h2 : mro.get_offset bus2 a2 = .ok o2) (h2e : o2 % 2 = 0)
    (h3 : mro.get_offset bus2 a3 = .ok o3) (h3o : o3 % 2 = 1)
    (h4 : mro.get_offset bus2 a4 = .error e4) :
    (o < m.mem.length → v8 < 256 →
      (m.write_8 bus a v8).1 = .ok () ∧
      (m.write_8 bus a v8).2.read_8 bus a = .ok v8) ∧
    (o % 2 = 0 → o + 1 < m.mem.length → v16 < 65536 →
      (m.write_16 bus a v16).1 = .ok () ∧
      (m.write_16 bus a v16).2.read_16 bus a = .ok v16) ∧
    (o % 2 = 0 → o + 3 < m.mem.length → v32 < 4294967296 →
      (m.write_32 bus a v32).1 = .ok () ∧
      (m.write_32 bus a v32).2.read_32 bus a = .ok v32) ∧
    mro.write_8 bus2 a2 v = (.err .ReadOnly, mro) ∧
    mro.write_16 bus2 a2 v = (.err .ReadOnly, mro) ∧
    mro.write_32 bus2 a2 v = (.err .ReadOnly, mro) ∧
    mro.write_8 bus2 a3 v = (.err .ReadOnly, mro) ∧
    mro.write_16 bus2 a3 v = (.err .Alignment, mro) ∧
    mro.write_32 bus2 a3 v = (.err .Alignment, mro) ∧
    mro.write_8 bus2 a4 v = (.err e4, mro) ∧
    mro.write_16 bus2 a4 v = (.err e4, mro) ∧
    mro.write_32 bus2 a4 v = (.err e4, mro) := by
  refine ⟨?_, ?_, ?_, ?_, ?_, ?_, ?_, ?_, ?_, ?_, ?_, ?_⟩
  · -- 8-bit round trip
    intro hb hv
    have hw : m.write_8 bus a v8 = (.ok (), { m with mem := m.mem.set o v8 }) := by
      simp [Memory.write_8, h, hro, hb]
    rw [hw]
    refine ⟨rfl, ?_⟩
    unfold Memory.read_8
    rw [get_offset_mem_irrel, h]
    simp only [List.length_set]
    rw [if_pos hb, getD_set_self _ _ _ hb]
  · -- 16-bit round trip
    intro he hb hv
    have hw : m.write_16 bus a v16 = (.ok (), { m with
        mem := (m.mem.set o ((v16 >>> 8) &&& 0xff)).set (o + 1) (v16 &&& 0xff) }) := by
      simp [Memory.write_16, h, hro, hb, he]
    rw [hw]
    refine ⟨rfl, ?_⟩
    unfold Memory.read_16
    rw [get_offset_mem_irrel, h]
    simp only [List.length_set]
    have he' : ¬ (o &&& 1 ≠ 0) := by simp [Nat.and_one_is_mod, he]
    rw [if_neg he', if_pos hb]
    have hb0 : ((m.mem.set o ((v16 >>> 8) &&& 0xff)).set (o + 1)
        (v16 &&& 0xff)).getD o 0 = (v16 >>> 8) &&& 0xff := by
      rw [getD_set_ne _ _ _ _ (by omega), getD_set_self _ _ _ (by omega)]
    have hb1 : ((m.mem.set o ((v16 >>> 8) &&& 0xff)).set (o + 1)
        (v16 &&& 0xff)).getD (o + 1) 0 = v16 &&& 0xff :=
      getD_set_self _ _ _ (by simpa using hb)
    rw [readBE16, hb0, hb1, shr_and255, and255_eq_mod,
      shl8_lor_eq _ _ (by omega)]
    norm_num
    omega
  · -- 32-bit round trip
    intro he hb hv
    have hw : m.write_32 bus a v32 = (.ok (), { m with
        mem := (((m.mem.set o ((v32 >>> 24) &&& 0xff)).set (o + 1)
          ((v32 >>> 16) &&& 0xff)).set (o + 2)
          ((v32 >>> 8) &&& 0xff)).set (o + 3) (v32 &&& 0xff) }) := by
      simp [Memory.write_32, h, hro, hb, he]
    rw [hw]
    refine ⟨rfl, ?_⟩
    unfold Memory.read_32
    rw [get_offset_mem_irrel, h]
    simp only [List.length_set]
    have he' : ¬ (o &&& 1 ≠ 0) := by simp [Nat.and_one_is_mod, he]
    rw [if_neg he', if_pos hb]
    have hlen : o < m.mem.length := by omega
    have hg0 : (((((m.mem.set o ((v32 >>> 24) &&& 0xff)).set (o + 1)
        ((v32 >>> 16) &&& 0xff)).set (o + 2)
        ((v32 >>> 8) &&& 0xff)).set (o + 3) (v32 &&& 0xff))).getD o 0 =
        (v32 >>> 24) &&& 0xff := by
      rw [getD_set_ne _ _ _ _ (by omega), getD_set_ne _ _ _ _ (by omega),
        getD_set_ne _ _ _ _ (by omega), getD_set_self _ _ _ (by omega)]
    have hg1 : (((((m.mem.set o ((v32 >>> 24) &&& 0xff)).set (o + 1)
        ((v32 >>> 16) &&& 0xff)).set (o + 2)
        ((v32 >>> 8) &&& 0xff)).set (o + 3) (v32 &&& 0xff))).getD (o + 1) 0 =
        (v32 >>> 16) &&& 0xff := by
      rw [getD_set_ne _ _ _ _ (by omega), getD_set_ne _ _ _ _ (by omega),
        getD_set_self _ _ _ (by simp; omega)]
    have hg2 : (((((m.mem.set o ((v32 >>> 24) &&& 0xff)).set (o + 1)
        ((v32 >>> 16) &&& 0xff)).set (o + 2)
        ((v32 >>> 8) &&& 0xff)).set (o + 3) (v32 &&& 0xff))).getD (o + 2) 0 =
        (v32 >>> 8) &&& 0xff := by
      rw [getD_set_ne _ _ _ _ (by omega), getD_set_self _ _ _ (by simp; omega)]
    have hg3 : (((((m.mem.set o ((v32 >>> 24) &&& 0xff)).set (o + 1)
        ((v32 >>> 16) &&& 0xff)).set (o + 2)
        ((v32 >>> 8) &&& 0xff)).set (o + 3) (v32 &&& 0xff))).getD (o + 3) 0 =
        v32 &&& 0xff := getD_set_self _ _ _ (by simp; omega)
    rw [readBE32, readBE16, readBE16, hg0, hg1, hg2, hg3]
    rw [shr_and255, shr_and255, shr_and255, and255_eq_mod]
    rw [shl8_lor_eq _ _ (by omega), shl8_lor_eq _ _ (by omega),
      shl16_lor_eq _ _ (by omega)]
    norm_num
    omega
  · simp [Memory.write_8, h2, hro2]
  · simp [Memory.write_16, h2, hro2, h2e]
  · simp [Memory.write_32, h2, hro2, h2e]
  · simp [Memory.write_8, h3, hro2]
  · simp [Memory.write_16, h3, h3o]
  · simp [Memory.write_32, h3, h3o]
  · simp [Memory.write_8, h4]
  · simp [Memory.write_16, h4]
  · simp [Memory.write_32, h4]

set_option maxRecDepth 4000 in
/-- C3 witness: concrete round trips at offsets 4 on the writable 256-byte
device, and concrete read-only outcomes: ReadOnly at even offset 2,
Alignment at odd offset 3, Access outside the range. -/
theorem c3_memory_roundtrip_and_readonly_witness :
    memSmall.get_offset Bus.empty 4 = .ok 4 ∧
    (Memory.write_8 memSmall Bus.empty 4 0xab).2.read_8 Bus.empty 4 = .ok 0xab ∧
    (Memory.write_16 memSmall Bus.empty 4 0xabcd).2.read_16 Bus.empty 4 =
      .ok 0xabcd ∧
    (Memory.write_32 memSmall Bus.empty 4 0xdeadbeef).2.read_32 Bus.empty 4 =
      .ok 0xdeadbeef ∧
    Memory.write_8 memSmallRO Bus.empty 2 7 = (.err .ReadOnly, memSmallRO) ∧
    Memory.write_16 memSmallRO Bus.empty 3 7 = (.err .Alignment, memSmallRO) ∧
    Memory.write_8 memSmallRO Bus.empty 0x1000 7 = (.err .Access, memSmallRO) := by
  have h := c3_memory_roundtrip_and_readonly memSmall memSmallRO Bus.empty
    Bus.empty 4 4 0xab 0xabcd 0xdeadbeef 2 2 3 3 0x1000 7 .Access
    (by decide) (by decide) (by decide) (by decide) (by decide) (by decide)
    (by decide) (by decide)
  exact ⟨by decide, (h.1 (by decide) (by decide)).2,
    (h.2.1 (by decide) (by decide) (by decide)).2,
    (h.2.2.1 (by decide) (by decide) (by decide)).2,
    h.2.2.2.1, h.2.2.2.2.2.2.2.1, h.2.2.2.2.2.2.2.2.2.1⟩

/-- C5: after the SCSI controller handles a ChipReset command (opcode 0
written to the Command register), aux-status equals the documented power-on
value 0x02 and all 8 per-device states are Unselected; after it handles
SelectWithoutAtn (opcode 9), the selected target's state is Selected,
aux-status is exactly the C/D bit (Command phase), the interrupt register
is exactly the FC bit, and the queue holds a service request for the SCSI
controller whose deadline (250 ms out) is strictly in the future. -/
theorem c5_scsi_reset_and_select (s : Scsi) (q : ServiceQueue) (now : Nat)
    (hdev : s.devices.length = 8) :
    (Scsi.write_8 s q now REG_COMMAND 0).2.1.aux_stat = 0x02 ∧
    (Scsi.write_8 s q now REG_COMMAND 0).2.1.devices =
      List.replicate 8 ⟨.Unselected⟩ ∧
    (Scsi.write_8 s q now REG_COMMAND 9).2.1.devices[s.dest_id &&& 0x7]? =
      some ⟨.Selected⟩ ∧
    (Scsi.write_8 s q now REG_COMMAND 9).2.1.aux_stat = AUX_CD ∧
    (Scsi.write_8 s q now REG_COMMAND 9).2.1.interrupt = INT_FC ∧
    (⟨.Scsi, now + 250000000⟩ : ServiceRequest) ∈
      (Scsi.write_8 s q now REG_COMMAND 9).2.2.queue ∧
    now < now + 250000000 := by
  have h0 : Scsi.write_8 s q now REG_COMMAND 0 =
      (.ok (), ({ s with cmd_ptr := 0 } : Scsi).reset, q) := by
    unfold Scsi.write_8
    rw [if_neg (by decide), if_neg (by decide), if_pos rfl]
    simp [Scsi.handle_command]
  have h9 : Scsi.write_8 s q now REG_COMMAND 9 =
      (.ok (), (({ s with cmd_ptr := 0 } : Scsi).select q now false).1,
        (({ s with cmd_ptr := 0 } : Scsi).select q now false).2) := by
    unfold Scsi.write_8
    rw [if_neg (by decide), if_neg (by decide), if_pos rfl]
    have : (9 : Nat) &&& 0x1f = 9 := by decide
    simp [Scsi.handle_command, this]
  have hidx : s.dest_id &&& 0x7 < s.devices.length := by
    have := Nat.and_le_right (n := s.dest_id) (m := 0x7)
    omega
  refine ⟨?_, ?_, ?_, ?_, ?_, ?_, by omega⟩
  · rw [h0]; rfl
  · rw [h0]
    show s.devices.map (fun _ => (⟨.Unselected⟩ : ScsiDevice)) =
      List.replicate 8 ⟨.Unselected⟩
    rw [List.map_const', hdev]
  · rw [h9]
    show (s.devices.set (s.dest_id &&& 0x7) ⟨.Selected⟩)[s.dest_id &&& 0x7]? =
      some ⟨.Selected⟩
    exact List.getElem?_set_self hidx
  · rw [h9]; rfl
  · rw [h9]; rfl
  · rw [h9]
    exact mem_insertByWhen _ _

/-- C5 witness: from a freshly constructed controller at instant 0, the
reset and select outcomes hold concretely. -/
theorem c5_scsi_reset_and_select_witness :
    Scsi.new.devices.length = 8 ∧
    (Scsi.write_8 Scsi.new ⟨[]⟩ 0 REG_COMMAND 0).2.1.aux_stat = 0x02 ∧
    (Scsi.write_8 Scsi.new ⟨[]⟩ 0 REG_COMMAND 9).2.1.devices[Scsi.new.dest_id
      &&& 0x7]? = some ⟨.Selected⟩ ∧
    (⟨.Scsi, 0 + 250000000⟩ : ServiceRequest) ∈
      (Scsi.write_8 Scsi.new ⟨[]⟩ 0 REG_COMMAND 9).2.2.queue := by
  have h := c5_scsi_reset_and_select Scsi.new ⟨[]⟩ 0 (by decide)
  exact ⟨by decide, h.1, h.2.2.1, h.2.2.2.2.2.1⟩

/-- C4: while no sound-device write has occurred (map_rom still true),
reading low-memory address 0x000100 returns the same value as reading ROM
address 0x740100 (both resolve to ROM offset 0x100).  One sound-device
write of any width succeeds and clears map_rom, after which reads of the
same low address resolve to the RAM device's content, independent of the
ROM device; any further sound-device write is idempotent, returning Ok and
leaving the bus (map_rom still false) and the queue unchanged. -/
theorem c4_sound_write_unmaps_rom (bus : Bus) (rom r : Memory)
    (q q2 : ServiceQueue) (now now2 v v2 : Nat) (rom1 rom2 : Option Memory)
    (hsound : bus.sound = some ())
    (hmap : bus.map_rom = true)
    (hrom : bus.rom = some rom)
    (hromro : rom.read_only = true)
    (hromsz : rom.size = 0x8000)
    (hram : bus.ram = some r)
    (hramro : r.read_only = false)
    (hrs : r.start_address = 0)
    (hre : r.end_address = 0x1fffff)
    (hrsz : r.size = 0x200000)
    (hrlen : 0x100 < r.mem.length) :
    (Bus.read_8 bus 0x100).1 = (Bus.read_8 bus 0x740100).1 ∧
    Bus.write_8 bus q now 0x788000 v =
      (.ok (), { bus with map_rom := false }, q) ∧
    (Bus.write_16 bus q now 0x788000 v).2.1 = { bus with map_rom := false } ∧
    (Bus.write_32 bus q now 0x788000 v).2.1 = { bus with map_rom := false } ∧
    (Bus.read_8 { bus with map_rom := false } 0x100).1 =
      .ok (r.mem.getD 0x100 0) ∧
    (Bus.read_8 { bus with map_rom := false, rom := rom1 } 0x100).1 =
      (Bus.read_8 { bus with map_rom := false, rom := rom2 } 0x100).1 ∧
    Bus.write_8 { bus with map_rom := false } q2 now2 0x788000 v2 =
      (.ok (), { bus with map_rom := false }, q2) := by
  have hram_read : ∀ b : Bus, b.map_rom = false → b.ram = some r →
      (Bus.read_8 b 0x100).1 = .ok (r.mem.getD 0x100 0) := by
    intro b hbm hbr
    have hdisp : Bus.read_8 b 0x100 = (r.read_8 b 0x100, b) := by
      simp [Bus.read_8, hbm, hbr, ROM_START, ROM_END, RAM_START, RAM_END]
    rw [hdisp]
    show r.read_8 b 0x100 = .ok (r.mem.getD 0x100 0)
    simp [Memory.read_8, Memory.get_offset, hramro, hbm, hrs, hre, hrsz, hrlen]
  refine ⟨?_, ?_, ?_, ?_, ?_, ?_, ?_⟩
  · -- low memory aliases ROM while map_rom is set
    have hdisp1 : Bus.read_8 bus 0x100 = (rom.read_8 bus 0x100, bus) := by
      simp [Bus.read_8, hmap, hrom, ROM_START, ROM_END, RAM_START, RAM_END]
    have hdisp2 : Bus.read_8 bus 0x740100 = (rom.read_8 bus 0x740100, bus) := by
      simp [Bus.read_8, hrom, ROM_START, ROM_END]
    rw [hdisp1, hdisp2]
    show rom.read_8 bus 0x100 = rom.read_8 bus 0x740100
    unfold Memory.read_8 Memory.get_offset
    rw [hromro, hmap, hromsz]
    norm_num
  · -- the first sound write clears map_rom
    simp [Bus.write_8, hsound, Sound.write, Sound.unmap_rom, hmap, ROM_START,
      ROM_END, RAM_START, RAM_END, DEBUG_RAM_START, DEBUG_RAM_END, SOUND_START,
      SOUND_END]
  · simp [Bus.write_16, hsound, Sound.write, Sound.unmap_rom, hmap, ROM_START,
      ROM_END, RAM_START, RAM_END, DEBUG_RAM_START, DEBUG_RAM_END, SOUND_START,
      SOUND_END]
  · simp [Bus.write_32, hsound, Sound.write, Sound.unmap_rom, hmap, ROM_START,
      ROM_END, RAM_START, RAM_END, DEBUG_RAM_START, DEBUG_RAM_END, SOUND_START,
      SOUND_END]
  · exact hram_read _ rfl (by rw [← hram])
  · -- RAM content is independent of the ROM device
    rw [hram_read _ rfl (by rw [← hram]), hram_read _ rfl (by rw [← hram])]
  · -- a redundant sound write changes nothing
    simp [Bus.write_8, hsound, Sound.write, Sound.unmap_rom, ROM_START,
      ROM_END, RAM_START, RAM_END, DEBUG_RAM_START, DEBUG_RAM_END, SOUND_START,
      SOUND_END]

set_option maxRecDepth 4000 in
/-- C4 witness: on the boot-configuration bus, the low-memory and ROM reads
agree, one sound write returns Ok and clears map_rom, and afterwards the
low read returns RAM byte 7. -/
theorem c4_sound_write_unmaps_rom_witness :
    busBoot.map_rom = true ∧
    (Bus.read_8 busBoot 0x100).1 = (Bus.read_8 busBoot 0x740100).1 ∧
    Bus.write_8 busBoot ⟨[]⟩ 0 0x788000 0 =
      (.ok (), { busBoot with map_rom := false }, (⟨[]⟩ : ServiceQueue)) ∧
    (Bus.read_8 { busBoot with map_rom := false } 0x100).1 =
      .ok (ramW.mem.getD 0x100 0) := by
  have h := c4_sound_write_unmaps_rom busBoot romW ramW ⟨[]⟩ ⟨[]⟩ 0 0 0 0
    (some romW) none rfl rfl rfl rfl rfl rfl rfl rfl rfl rfl (by decide)
  exact ⟨rfl, h.1, h.2.1, h.2.2.2.2.1⟩

end Tek4404
